import Mathlib

/-!
Verification of the portainer-info-extract data-collection pipeline.

The development shallowly embeds the two Python modules:

* src/app.py — the flat script: configuration check, authentication,
  endpoint/group discovery, the per-endpoint loop collecting services,
  secrets, nodes, containers and per-container statistics, and the
  spreadsheet export block;
* src/portainer_api.py — the PortainerAPI class, of which the
  error-containing fetcher safe_request is the part under scrutiny.

HTTP traffic is modelled by injecting, for each request the code would
perform, the outcome of that request (decoded payload, HTTP status error,
or transport-level error); an uncaught Python exception is modelled by
an Except.error result propagating out of the embedded function.
-/

namespace Portainer

/-- Python e.split(sep)[0]: the prefix of the string before the first
occurrence of the separator; the whole string when the separator does not
occur.  Used by app.py for env.split('=')[0] and full_image.split('@')[0]. -/
def pySplitHead (s : String) (sep : Char) : String :=
  String.mk (s.toList.takeWhile (fun c => c != sep))

/-- Python dict .get on a string-keyed mapping represented as an
association list (labels dictionaries in the upstream JSON). -/
def dictGet (d : List (String × String)) (k : String) : Option String :=
  (d.find? (fun p => p.1 == k)).map (·.2)

/-! ## Upstream JSON payloads, typed with exactly the fields the code reads -/

/-- group["Id"], group["Name"] (endpoint_groups payload). -/
structure Group where
  id : Nat
  name : String
deriving DecidableEq, Repr

/-- service["Spec"]["Mode"]["Replicated"]: present iff the mode dictionary
has a "Replicated" key; its "Replicas" count. -/
structure ReplicatedMode where
  replicas : Nat
deriving DecidableEq, Repr

/-- service["Spec"]["Mode"]: only the "Replicated" key is ever read. -/
structure ServiceMode where
  replicated : Option ReplicatedMode
deriving DecidableEq, Repr

/-- One entry of ContainerSpec["Configs"]: ConfigName and File.Name. -/
structure ConfigRef where
  configName : String
  fileName : String
deriving DecidableEq, Repr

/-- One entry of ContainerSpec["Mounts"]: Source, Target, Type. -/
structure MountRef where
  source : String
  target : String
  type : String
deriving DecidableEq, Repr

/-- service["Spec"]["TaskTemplate"]["ContainerSpec"]; optional fields are
the ones the code reads with .get or an "in" guard. -/
structure ContainerSpec where
  env : Option (List String)
  image : String
  configs : Option (List ConfigRef)
  mounts : Option (List MountRef)
  labels : Option (List (String × String))
deriving DecidableEq, Repr

/-- service["Spec"]["TaskTemplate"]. -/
structure TaskTemplate where
  containerSpec : ContainerSpec
deriving DecidableEq, Repr

/-- service["Spec"]. -/
structure ServiceSpec where
  name : String
  taskTemplate : TaskTemplate
  mode : ServiceMode
deriving DecidableEq, Repr

/-- One element of the services payload. -/
structure Service where
  spec : ServiceSpec
deriving DecidableEq, Repr

/-- secret["Spec"]: only the Name is read. -/
structure SecretSpec where
  name : String
deriving DecidableEq, Repr

/-- One element of the secrets payload. -/
structure Secret where
  spec : SecretSpec
deriving DecidableEq, Repr

/-- node["Description"]["Resources"]. -/
structure NodeResources where
  nanoCPUs : Nat
  memoryBytes : Nat
deriving DecidableEq, Repr

/-- node["Description"]. -/
structure NodeDescription where
  hostname : String
  resources : NodeResources
deriving DecidableEq, Repr

/-- node["Spec"]. -/
structure NodeSpec where
  role : String
  availability : String
deriving DecidableEq, Repr

/-- node["Status"]. -/
structure NodeStatus where
  state : String
deriving DecidableEq, Repr

/-- One element of the nodes payload. -/
structure Node where
  description : NodeDescription
  spec : NodeSpec
  status : NodeStatus
deriving DecidableEq, Repr

/-! ## Output records (the flattened rows accumulated by app.py) -/

/-- One entry of services_data (app.py lines 124-135). -/
structure ServiceRecord where
  group : String
  endpoint : String
  type : String
  name : String
  image : String
  environmentVariables : List String
  configurations : List ConfigRef
  mounts : List MountRef
  replicas : Nat
  stack : Option String
deriving DecidableEq, Repr

/-- One entry of secrets_data (app.py lines 145-149). -/
structure SecretRow where
  endpoint : String
  type : String
  names : List String
deriving DecidableEq, Repr

/-- One value of nodes_dict (app.py lines 160-169). -/
structure NodeRecord where
  endpoint : String
  type : String
  hostname : String
  role : String
  availability : String
  nanoCPUs : Nat
  memoryBytes : Nat
  state : String
deriving DecidableEq, Repr

/-- One entry of container_stats_data (app.py lines 188-193); the stats
payload is kept opaque. -/
structure StatsRecord where
  endpoint : String
  stack : String
  service : String
  stats : String
deriving DecidableEq, Repr

/-- One entry of the request_errors list: {"URL": url, "Error": str(err)}. -/
structure ErrEntry where
  url : String
  error : String
deriving DecidableEq, Repr

/-! ## HTTP outcomes and the two safe_request fetchers -/

/-- The outcome of one HTTP GET the code performs: a 2xx response with a
decoded body, a non-2xx status (raise_for_status raises HTTPError), or a
transport-level failure (ConnectionError, Timeout, ...). -/
inductive HttpOutcome (α : Type) where
  | success (body : α)
  | httpError (msg : String)
  | transportError (msg : String)
deriving DecidableEq, Repr

/-- app.py safe_request (lines 46-58): catches only
requests.exceptions.HTTPError, appending {URL, Error} to request_errors and
returning None; a transport-level error is NOT caught and propagates
(modelled as Except.error). -/
def app_safe_request {α : Type} (url : String) (outcome : HttpOutcome α)
    (errors : List ErrEntry) : Except String (Option α × List ErrEntry) :=
  match outcome with
  | .success body => .ok (some body, errors)
  | .httpError msg => .ok (none, errors ++ [⟨url, msg⟩])
  | .transportError msg => .error msg

/-- portainer_api.py PortainerAPI.safe_request (lines 26-39): catches
requests.exceptions.RequestException, which covers both HTTPError and
transport-level errors; every failure is appended to request_errors and
None is returned. -/
def api_safe_request {α : Type} (url : String) (outcome : HttpOutcome α)
    (errors : List ErrEntry) : Option α × List ErrEntry :=
  match outcome with
  | .success body => (some body, errors)
  | .httpError msg => (none, errors ++ [⟨url, msg⟩])
  | .transportError msg => (none, errors ++ [⟨url, msg⟩])

/-! ## Configuration check (app.py lines 6-17) -/

/-- The three environment inputs; None models an unset variable. -/
structure Env where
  host : Option String
  user : Option String
  password : Option String
deriving DecidableEq, Repr

/-- The two distinct Python exceptions the configuration block can raise:
None.startswith raises AttributeError (line 12) when PORTAINER_HOST is
unset; the explicit check (line 16) raises ValueError. -/
inductive ConfigError where
  | attributeError
  | valueError
deriving DecidableEq, Repr

/-- Python truthiness of a possibly-unset string: None and "" are falsy. -/
def truthyStr : Option String → Bool
  | none => false
  | some s => !(s == "")

/-- Whether the first list is an initial segment of the second. -/
def charsStart : List Char → List Char → Bool
  | [], _ => true
  | _ :: _, [] => false
  | p :: ps, c :: cs => p == c && charsStart ps cs

/-- Python str.startswith. -/
def pyStartsWith (s pre : String) : Bool :=
  charsStart pre.toList s.toList

/-- url_portainer normalization (app.py lines 11-13):
url_portainer.startswith(('http://', 'https://')). -/
def withScheme (u : String) : String :=
  if pyStartsWith u "http://" || pyStartsWith u "https://" then u
  else "https://" ++ u

/-- app.py lines 6-17: read the three variables, normalize the URL
(raising AttributeError when the host is unset, since None has no
startswith), then raise ValueError when any of the three is falsy. -/
def checkConfig (e : Env) : Except ConfigError String :=
  match e.host with
  | none => .error .attributeError
  | some u =>
    let url := withScheme u
    if !truthyStr (some url) || !truthyStr e.user || !truthyStr e.password then
      .error .valueError
    else
      .ok url

/-! ## Request URLs (f-strings in app.py) -/

/-- f"{url_portainer}/api/endpoints/{endpoint_id}/docker/services". -/
def servicesUrl (base : String) (endpointId : Nat) : String :=
  base ++ "/api/endpoints/" ++ toString endpointId ++ "/docker/services"

/-- f"{url_portainer}/api/endpoints/{endpoint_id}/docker/secrets". -/
def secretsUrl (base : String) (endpointId : Nat) : String :=
  base ++ "/api/endpoints/" ++ toString endpointId ++ "/docker/secrets"

/-- f"{url_portainer}/api/endpoints/{endpoint_id}/docker/nodes". -/
def nodesUrl (base : String) (endpointId : Nat) : String :=
  base ++ "/api/endpoints/" ++ toString endpointId ++ "/docker/nodes"

/-- f"{url_portainer}/api/endpoints/{endpoint_id}/docker/containers/json". -/
def containersUrl (base : String) (endpointId : Nat) : String :=
  base ++ "/api/endpoints/" ++ toString endpointId ++ "/docker/containers/json"

/-- The per-container stats URL with stream=false. -/
def statsUrl (base : String) (endpointId : Nat) (containerId : String) : String :=
  base ++ "/api/endpoints/" ++ toString endpointId ++ "/docker/containers/"
    ++ containerId ++ "/stats?stream=false"

/-! ## Service flattening (app.py lines 90-135) -/

/-- env_keys = [env.split('=')[0] for env in ContainerSpec.get("Env", [])]
(app.py line 92). -/
def envKeysOf (env : List String) : List String :=
  env.map (fun e => pySplitHead e '=')

/-- Flattening of one service into a services_data entry (app.py lines
90-135).  The unconditional read of Spec.Mode["Replicated"]["Replicas"]
at line 133 raises KeyError when the mode has no "Replicated" key; that
uncaught exception is modelled as Except.error. -/
def extractService (groupName endpointName : String) (s : Service) :
    Except String ServiceRecord :=
  let cs := s.spec.taskTemplate.containerSpec
  let envKeys := envKeysOf (cs.env.getD [])
  let imageWithoutSha := pySplitHead cs.image '@'
  let configDetails := cs.configs.getD []
  let mountsDetails := cs.mounts.getD []
  let stack := dictGet (cs.labels.getD []) "com.docker.stack.namespace"
  match s.spec.mode.replicated with
  | none => .error "KeyError: Replicated"
  | some rep =>
    .ok { group := groupName, endpoint := endpointName, type := "Service",
          name := s.spec.name, image := imageWithoutSha,
          environmentVariables := envKeys, configurations := configDetails,
          mounts := mountsDetails, replicas := rep.replicas, stack := stack }

/-- The for-loop over the services payload, appending one record per
service; the first KeyError aborts the loop (and the run). -/
def processServices (groupName endpointName : String) :
    List Service → List ServiceRecord → Except String (List ServiceRecord)
  | [], recs => .ok recs
  | s :: rest, recs =>
    match extractService groupName endpointName s with
    | .error m => .error m
    | .ok r => processServices groupName endpointName rest (recs ++ [r])

/-! ## Secrets summary (app.py lines 137-149) -/

/-- The single secrets_data entry appended for one endpoint whose secrets
fetch returned a payload: the list of secret names, as one row. -/
def secretsRow (endpointName : String) (secs : List Secret) : SecretRow :=
  { endpoint := endpointName, type := "Secret",
    names := secs.map (fun s => s.spec.name) }

/-- One endpoint's contribution to secrets_data, over the result of
safe_request (the decoded payload, or None on a caught failure): a row is
appended exactly when the response is not None (app.py line 140). -/
def secretsStep (rows : List SecretRow) (p : String × Option (List Secret)) :
    List SecretRow :=
  match p.2 with
  | none => rows
  | some secs => rows ++ [secretsRow p.1 secs]

/-- The secrets portion of the endpoint loop across the whole run. -/
def secretsTable (eps : List (String × Option (List Secret))) : List SecretRow :=
  eps.foldl secretsStep []

/-! ## Node deduplication (app.py lines 152-169) -/

/-- The flattened nodes_dict value for one node first seen from the given
endpoint (app.py lines 160-169). -/
def nodeRecordOf (endpointName : String) (n : Node) : NodeRecord :=
  { endpoint := endpointName, type := "Node",
    hostname := n.description.hostname, role := n.spec.role,
    availability := n.spec.availability,
    nanoCPUs := n.description.resources.nanoCPUs,
    memoryBytes := n.description.resources.memoryBytes,
    state := n.status.state }

/-- nodes_dict is a Python dict; we model it as an insertion-ordered
association list from hostname to record. -/
abbrev NodesDict := List (String × NodeRecord)

/-- Lines 157-169: insert the node only if its hostname is not yet a key
of nodes_dict. -/
def insertNode (endpointName : String) (d : NodesDict) (n : Node) : NodesDict :=
  if d.any (fun q => q.1 == n.description.hostname) then d
  else d ++ [(n.description.hostname, nodeRecordOf endpointName n)]

/-- The for-loop over one nodes payload. -/
def nodesInsert (endpointName : String) (ns : List Node) (d : NodesDict) :
    NodesDict :=
  ns.foldl (insertNode endpointName) d

/-- One endpoint's contribution to nodes_dict, over the result of
safe_request: the payload's nodes are inserted exactly when the response
is not None (app.py line 155). -/
def nodesStep (d : NodesDict) (p : String × Option (List Node)) : NodesDict :=
  match p.2 with
  | none => d
  | some ns => nodesInsert p.1 ns d

/-- The nodes portion of the endpoint loop across the whole run, over the
per-endpoint results of safe_request. -/
def nodesTable (eps : List (String × Option (List Node))) : NodesDict :=
  eps.foldl nodesStep []

/-- Python dict key lookup on the association-list model. -/
def alookup (d : NodesDict) (h : String) : Option NodeRecord :=
  (d.find? (fun q => q.1 == h)).map (·.2)

/-- All (endpoint name, node) pairs the run traverses, in traversal
order: the flattening of the successful node payloads. -/
def sightings (eps : List (String × Option (List Node))) : List (String × Node) :=
  eps.flatMap
    (fun p =>
      match p.2 with
      | none => []
      | some ns => ns.map (fun n => (p.1, n)))

/-! ## Containers and stats (app.py lines 172-193) -/

/-- One element of the containers payload, together with the outcome of
the stats request the code then issues for it. -/
structure ContainerInput where
  id : String
  labels : List (String × String)
  statsResp : HttpOutcome String
deriving DecidableEq, Repr

/-- The inner for-loop over the containers payload: read the two labels
with default "Unknown", issue the per-container stats request through
safe_request, and append a stats record only when it succeeded.  A
transport-level stats failure propagates (app.py safe_request catches
only HTTPError). -/
def processContainersLoop (base : String) (endpointId : Nat)
    (endpointName : String) :
    List ContainerInput → List StatsRecord → List ErrEntry → List String →
    Except String (List StatsRecord × List ErrEntry × List String)
  | [], stats, errors, trace => .ok (stats, errors, trace)
  | c :: rest, stats, errors, trace =>
    let containerStack := (dictGet c.labels "com.docker.stack.namespace").getD "Unknown"
    let containerService := (dictGet c.labels "com.docker.swarm.service.name").getD "Unknown"
    let u := statsUrl base endpointId c.id
    match app_safe_request u c.statsResp errors with
    | .error m => .error m
    | .ok (none, errors') =>
      processContainersLoop base endpointId endpointName rest stats errors' (trace ++ [u])
    | .ok (some payload, errors') =>
      processContainersLoop base endpointId endpointName rest
        (stats ++ [{ endpoint := endpointName, stack := containerStack,
                     service := containerService, stats := payload }])
        errors' (trace ++ [u])

/-! ## The per-endpoint loop body (app.py lines 78-193) -/

/-- One element of the endpoints payload, together with the outcomes of
the four resource requests the loop body performs for it. -/
structure EndpointInput where
  id : Nat
  name : String
  groupId : Nat
  servicesResp : HttpOutcome (List Service)
  secretsResp : HttpOutcome (List Secret)
  nodesResp : HttpOutcome (List Node)
  containersResp : HttpOutcome (List ContainerInput)
deriving DecidableEq, Repr

/-- The process-wide accumulators (app.py lines 43, 71-74) plus the trace
of request URLs attempted inside the loop. -/
structure RunAcc where
  services : List ServiceRecord
  secrets : List SecretRow
  nodes : NodesDict
  stats : List StatsRecord
  errors : List ErrEntry
  trace : List String
deriving DecidableEq, Repr

/-- All accumulators start empty (app.py lines 43, 71-74). -/
def emptyAcc : RunAcc :=
  { services := [], secrets := [], nodes := [], stats := [], errors := [],
    trace := [] }

/-- group_id_to_name built by dict comprehension (line 69) and read with
.get(group_id, "Unknown Group") (line 82); a duplicated id keeps the last
occurrence, as in a Python dict. -/
def groupNameOf (groups : List Group) (gid : Nat) : String :=
  (groups.foldl (fun acc g => if g.id == gid then some g.name else acc) none).getD
    "Unknown Group"

/-- One iteration of the endpoint loop (app.py lines 78-193): fetch and
flatten services, secrets, nodes, containers and stats, each through
safe_request.  An uncaught exception (transport-level fetch failure, or
the KeyError of a non-replicated service) propagates as Except.error and
aborts the run. -/
def processEndpoint (base : String) (groups : List Group) (acc : RunAcc)
    (ep : EndpointInput) : Except String RunAcc :=
  let groupName := groupNameOf groups ep.groupId
  let su := servicesUrl base ep.id
  let xu := secretsUrl base ep.id
  let nu := nodesUrl base ep.id
  let cu := containersUrl base ep.id
  match app_safe_request su ep.servicesResp acc.errors with
  | .error m => .error m
  | .ok (servicesResponse, errors1) =>
    let step1 : Except String (List ServiceRecord) :=
      match servicesResponse with
      | none => .ok acc.services
      | some svcs => processServices groupName ep.name svcs acc.services
    match step1 with
    | .error m => .error m
    | .ok services1 =>
      match app_safe_request xu ep.secretsResp errors1 with
      | .error m => .error m
      | .ok (secretsResponse, errors2) =>
        let secrets1 :=
          match secretsResponse with
          | none => acc.secrets
          | some secs => acc.secrets ++ [secretsRow ep.name secs]
        match app_safe_request nu ep.nodesResp errors2 with
        | .error m => .error m
        | .ok (nodesResponse, errors3) =>
          let nodes1 :=
            match nodesResponse with
            | none => acc.nodes
            | some ns => nodesInsert ep.name ns acc.nodes
          match app_safe_request cu ep.containersResp errors3 with
          | .error m => .error m
          | .ok (containersResponse, errors4) =>
            let trace1 := acc.trace ++ [su, xu, nu, cu]
            let step2 : Except String (List StatsRecord × List ErrEntry × List String) :=
              match containersResponse with
              | none => .ok (acc.stats, errors4, trace1)
              | some cs => processContainersLoop base ep.id ep.name cs acc.stats errors4 trace1
            match step2 with
            | .error m => .error m
            | .ok (stats1, errors5, trace2) =>
              .ok { services := services1, secrets := secrets1, nodes := nodes1,
                    stats := stats1, errors := errors5, trace := trace2 }

/-- The for-loop over the endpoints payload (app.py line 78). -/
def runEndpoints (base : String) (groups : List Group) (acc : RunAcc) :
    List EndpointInput → Except String RunAcc
  | [] => .ok acc
  | ep :: rest =>
    match processEndpoint base groups acc ep with
    | .error m => .error m
    | .ok acc' => runEndpoints base groups acc' rest

/-! ## The whole run (app.py top level) -/

/-- Why a run aborted: the configuration exceptions, the three
raise_for_status calls outside the loop, or an exception escaping the
endpoint loop. -/
inductive RunError where
  | config (e : ConfigError)
  | authFailed (msg : String)
  | endpointsFailed (msg : String)
  | groupsFailed (msg : String)
  | uncaught (msg : String)
deriving DecidableEq, Repr

/-- The run's external inputs: the environment and the outcome of each
top-level request (auth POST, endpoints GET, endpoint_groups GET — each a
plain request followed by raise_for_status, so any failure raises). -/
structure RunInput where
  env : Env
  authResp : Except String String
  endpointsResp : Except String (List EndpointInput)
  groupsResp : Except String (List Group)
deriving Repr

/-- app.py top level: configuration check, authentication, endpoints
listing, groups listing, then the endpoint loop.  The second component is
the list of top-level request URLs attempted before (or instead of)
entering the loop. -/
def runApp (inp : RunInput) : Except RunError RunAcc × List String :=
  match checkConfig inp.env with
  | .error e => (.error (.config e), [])
  | .ok base =>
    let t1 := [base ++ "/api/auth"]
    match inp.authResp with
    | .error m => (.error (.authFailed m), t1)
    | .ok _jwt =>
      let t2 := t1 ++ [base ++ "/api/endpoints"]
      match inp.endpointsResp with
      | .error m => (.error (.endpointsFailed m), t2)
      | .ok endpoints =>
        let t3 := t2 ++ [base ++ "/api/endpoint_groups"]
        match inp.groupsResp with
        | .error m => (.error (.groupsFailed m), t3)
        | .ok groups =>
          match runEndpoints base groups emptyAcc endpoints with
          | .error m => (.error (.uncaught m), t3)
          | .ok acc => (.ok acc, t3)

/-! ## Export block (app.py lines 204-212) -/

/-- The ExcelWriter block: the fixed output file name and the five sheets
written, each with its row count. -/
def excelExport (acc : RunAcc) : String × List (String × Nat) :=
  ("portainer_data.xlsx",
    [("Services", acc.services.length),
     ("Secrets", acc.secrets.length),
     ("Nodes", acc.nodes.length),
     ("Container Statistics", acc.stats.length),
     ("Request Errors", acc.errors.length)])

/-! ## Well-formedness and expected error-log content for run-level claims -/

/-- True when the outcome is not a transport-level failure, i.e. when
app.py's safe_request contains it. -/
def caughtOutcome {α : Type} : HttpOutcome α → Bool
  | .transportError _ => false
  | _ => true

/-- One endpoint's inputs let the loop body finish without an uncaught
exception: no transport-level failure on any of its requests and every
successfully fetched service is in replicated mode. -/
def wfEndpoint (ep : EndpointInput) : Bool :=
  (match ep.servicesResp with
   | .transportError _ => false
   | .httpError _ => true
   | .success svcs => svcs.all (fun s => s.spec.mode.replicated.isSome)) &&
  caughtOutcome ep.secretsResp &&
  caughtOutcome ep.nodesResp &&
  (match ep.containersResp with
   | .transportError _ => false
   | .httpError _ => true
   | .success cs => cs.all (fun c => caughtOutcome c.statsResp))

/-- Well-formedness of a whole run input. -/
def wfInput (inp : RunInput) : Bool :=
  match inp.endpointsResp with
  | .error _ => true
  | .ok eps => eps.all wfEndpoint

/-- Boolean success test on Except. -/
def exceptOk {ε α : Type} : Except ε α → Bool
  | .ok _ => true
  | .error _ => false

/-- The error-log entries the stats requests of one containers payload
contribute, in order. -/
def statsErrorsOf (base : String) (endpointId : Nat) :
    List ContainerInput → List ErrEntry
  | [] => []
  | c :: rest =>
    (match c.statsResp with
     | .httpError m => [⟨statsUrl base endpointId c.id, m⟩]
     | _ => []) ++ statsErrorsOf base endpointId rest

/-- The error-log entries one endpoint's loop iteration contributes, in
order: one per caught per-resource failure, carrying the requested URL. -/
def expectedErrors (base : String) (ep : EndpointInput) : List ErrEntry :=
  (match ep.servicesResp with
   | .httpError m => [⟨servicesUrl base ep.id, m⟩]
   | _ => []) ++
  (match ep.secretsResp with
   | .httpError m => [⟨secretsUrl base ep.id, m⟩]
   | _ => []) ++
  (match ep.nodesResp with
   | .httpError m => [⟨nodesUrl base ep.id, m⟩]
   | _ => []) ++
  (match ep.containersResp with
   | .httpError m => [⟨containersUrl base ep.id, m⟩]
   | .transportError _ => []
   | .success cs => statsErrorsOf base ep.id cs)

/-! ## Concurrent Dispatcher, modelled from the spec

Modelled from the spec: the class-based Concurrent Dispatcher of spec
section 4.5 (the driver that uses PortainerAPI) is not under src/ —
src/app.py iterates the endpoints sequentially in one thread and
src/portainer_api.py only declares the API client.  Following the spec's
words: the dispatcher "partitions endpoints by group id, submits one task
per group to a bounded worker pool (default width 32), each task
sequentially runs Per-Endpoint Collector over its group's endpoints, and
blocks the run until every task completes"; within one group, endpoints
are processed in listing order. -/

/-- Modelled from the spec: the bounded worker pool's default width. -/
def poolWidth : Nat := 32

/-- Modelled from the spec: the distinct group ids, in first-appearance
order. -/
def groupIdsOf (eps : List EndpointInput) : List Nat :=
  (eps.map (fun e => e.groupId)).dedup

/-- Modelled from the spec: the task submitted for one group processes
exactly that group's endpoints, in listing order. -/
def groupTask (eps : List EndpointInput) (g : Nat) : List EndpointInput :=
  eps.filter (fun e => e.groupId == g)

/-- Modelled from the spec: the partition of the endpoints by group id —
one (group id, endpoints of that group) task per distinct group. -/
def partitionByGroup (eps : List EndpointInput) : List (Nat × List EndpointInput) :=
  (groupIdsOf eps).map (fun g => (g, groupTask eps g))

/-- Modelled from the spec: the join of the run — every task's result,
one per group; each task runs the per-endpoint collector sequentially
over its group's endpoints. -/
def dispatchRun (base : String) (groups : List Group)
    (eps : List EndpointInput) : List (Nat × Except String RunAcc) :=
  (partitionByGroup eps).map
    (fun p => (p.1, runEndpoints base groups emptyAcc p.2))

/-! ## Helper lemmas -/

/-- takeWhile with one predicate is idempotent. -/
theorem takeWhile_idem {α : Type} (p : α → Bool) (l : List α) :
    (l.takeWhile p).takeWhile p = l.takeWhile p := by
  induction l with
  | nil => rfl
  | cons a l ih =>
    cases h : p a with
    | true => simp [List.takeWhile_cons, h, ih]
    | false => simp [List.takeWhile_cons, h]

/-- The head of dropWhile, when present, fails the predicate. -/
theorem head?_dropWhile_false {α : Type} (p : α → Bool) (l : List α) :
    ∀ c, (l.dropWhile p).head? = some c → p c = false := by
  induction l with
  | nil => intro c h; simp at h
  | cons a l ih =>
    intro c h
    rw [List.dropWhile_cons] at h
    by_cases ha : p a = true
    · rw [if_pos ha] at h
      exact ih c h
    · rw [if_neg ha] at h
      simp at h
      rw [← h]
      exact Bool.eq_false_iff.mpr ha

/-- Folding secretsStep appends exactly the rows of the successful
responses, in order. -/
theorem foldl_secretsStep_append (eps : List (String × Option (List Secret))) :
    ∀ rows, eps.foldl secretsStep rows =
      rows ++ eps.filterMap (fun p => p.2.map (fun secs => secretsRow p.1 secs)) := by
  induction eps with
  | nil => intro rows; simp
  | cons p rest ih =>
    intro rows
    rw [List.foldl_cons, ih]
    cases h : p.2 with
    | none => simp [secretsStep, h, List.filterMap_cons]
    | some secs => simp [secretsStep, h, List.filterMap_cons]

/-! ## Claim C1 -/

/-- A service whose Spec.Mode lacks the "Replicated" key (a global-mode
service). -/
def globalModeService : Service :=
  { spec := { name := "log-agent",
              taskTemplate := { containerSpec :=
                { env := some ["LOG_LEVEL=info"], image := "agent:1.2",
                  configs := none, mounts := none, labels := none } },
              mode := { replicated := none } } }

/-- C1: the claim says a service record with replica count 0 is produced
when Spec.Mode has no "Replicated" key; the code instead reads
Spec.Mode["Replicated"]["Replicas"] unconditionally (app.py line 133), so
for such a service the flattening raises KeyError and produces no record
at all. -/
theorem c1_global_mode_keyError :
    extractService "GroupA" "EndpointA" globalModeService =
      Except.error "KeyError: Replicated" := rfl

/-! ## Claim C2 -/

/-- Endpoint A with two secrets and endpoint B whose secrets fetch
succeeds with zero secrets. -/
def secretsExampleInput : List (String × Option (List Secret)) :=
  [("A", some [⟨⟨"s1"⟩⟩, ⟨⟨"s2"⟩⟩]), ("B", some [])]

/-- C2 counterexample: with endpoint A holding secrets s1, s2 and
endpoint B with zero secrets (a successful fetch of an empty list), the
secrets table has two rows, not one: B is not omitted, it contributes a
row with an empty name list. -/
theorem c2_counterexample :
    secretsTable secretsExampleInput =
      [⟨"A", "Secret", ["s1", "s2"]⟩, ⟨"B", "Secret", []⟩] ∧
    (secretsTable secretsExampleInput).length ≠ 1 := by
  exact ⟨rfl, by decide⟩

/-- C2 (amended): every endpoint whose secrets fetch succeeds contributes
exactly one summary row holding the list of that endpoint's secret names
— including a row with an empty list for an endpoint with zero secrets —
and only endpoints whose fetch failed are omitted. -/
theorem c2_one_row_per_successful_fetch :
    ∀ eps : List (String × Option (List Secret)),
      secretsTable eps =
        eps.filterMap (fun p => p.2.map (fun secs => secretsRow p.1 secs)) := by
  intro eps
  unfold secretsTable
  rw [foldl_secretsStep_append]
  simp

/-! ## Claim C3 -/

/-- C3 counterexample: app.py's safe_request catches only HTTPError, so a
transport-level error (here a refused connection) is not appended to the
error log and propagates out of the collector instead of returning None. -/
theorem c3_counterexample :
    @app_safe_request (List Secret)
        "https://portainer.example.com/api/endpoints/1/docker/secrets"
        (HttpOutcome.transportError "ConnectionError: connection refused") [] =
      Except.error "ConnectionError: connection refused" := rfl

/-- C3 (amended): the class-based fetcher (portainer_api.py safe_request)
contains any transport or non-2xx HTTP error, appending exactly one
{url, error_message} entry and returning absent; the script's fetcher
(app.py safe_request) contains only non-2xx HTTP errors the same way —
in particular an HTTP 500 yields exactly one Request Error entry carrying
the requested URL in both — but lets transport-level errors propagate. -/
theorem c3_error_containment :
    ∀ (α : Type) (url msg : String) (errs : List ErrEntry),
      api_safe_request url (@HttpOutcome.httpError α msg) errs =
        (none, errs ++ [⟨url, msg⟩]) ∧
      api_safe_request url (@HttpOutcome.transportError α msg) errs =
        (none, errs ++ [⟨url, msg⟩]) ∧
      app_safe_request url (@HttpOutcome.httpError α msg) errs =
        Except.ok (none, errs ++ [⟨url, msg⟩]) := by
  intro α url msg errs
  exact ⟨rfl, rfl, rfl⟩

/-! ## Claim C6 -/

/-- C6 counterexample: the export block names the file with the fixed
literal portainer_data.xlsx — not a slug derived from the base URL's host
(the file name does not depend on the run at all) — and writes no
Endpoints sheet. -/
theorem c6_counterexample :
    (excelExport emptyAcc).1 = "portainer_data.xlsx" ∧
    ((excelExport emptyAcc).2.map Prod.fst).contains "Endpoints" = false := by
  exact ⟨rfl, by decide⟩

/-- C6 (amended): the run produces one spreadsheet file with the fixed
name portainer_data.xlsx, containing exactly the sheets Services,
Secrets, Nodes, Container Statistics and Request Errors (no Endpoints
sheet; the name is not derived from the URL). -/
theorem c6_export_shape :
    ∀ acc : RunAcc,
      (excelExport acc).1 = "portainer_data.xlsx" ∧
      (excelExport acc).2.map Prod.fst =
        ["Services", "Secrets", "Nodes", "Container Statistics",
         "Request Errors"] := by
  intro acc
  exact ⟨rfl, rfl⟩

/-! ## Claim C8 -/

/-- C8: image reference stripping (cutting at the digest separator) is
idempotent on inputs without a digest separator, and the example with a
sha256 digest strips to the image:tag part. -/
theorem c8_strip_idempotent :
    (∀ x : String, '@' ∉ x.toList →
      pySplitHead (pySplitHead x '@') '@' = pySplitHead x '@') ∧
    pySplitHead "repo/image:tag@sha256:abc" '@' = "repo/image:tag" := by
  constructor
  · intro x _
    show String.mk ((x.toList.takeWhile (fun c => c != '@')).takeWhile (fun c => c != '@')) =
      String.mk (x.toList.takeWhile (fun c => c != '@'))
    rw [takeWhile_idem]
  · rfl

/-- C8 witness: concrete instance for an image reference without a
digest separator. -/
theorem c8_strip_idempotent_witness :
    ('@' ∉ "repo/image:tag".toList) ∧
      pySplitHead (pySplitHead "repo/image:tag" '@') '@' =
        pySplitHead "repo/image:tag" '@' :=
  ⟨by decide, c8_strip_idempotent.1 "repo/image:tag" (by decide)⟩

/-! ## Claim C10 -/

/-- C10: each extracted environment-variable key is the prefix of its Env
entry before the first separator (the key carries no separator, and what
was cut off is empty or starts with the separator); an entry with no
separator contributes the whole entry; and the key list is the entrywise
image of the Env list, preserving length and order. -/
theorem c10_env_keys :
    (∀ e : String,
        (pySplitHead e '=').toList ++ e.toList.dropWhile (fun c => c != '=') = e.toList ∧
        '=' ∉ (pySplitHead e '=').toList ∧
        (∀ c, (e.toList.dropWhile (fun c => c != '=')).head? = some c → c = '=')) ∧
    (∀ e : String, '=' ∉ e.toList → pySplitHead e '=' = e) ∧
    (∀ env : List String,
        (envKeysOf env).length = env.length ∧
        ∀ i : Nat, (envKeysOf env)[i]? = (env[i]?).map (fun e => pySplitHead e '=')) := by
  refine ⟨fun e => ⟨?_, ?_, ?_⟩, fun e he => ?_, fun env => ⟨?_, fun i => ?_⟩⟩
  · exact List.takeWhile_append_dropWhile (fun c => c != '=') e.toList
  · intro hmem
    have := List.mem_takeWhile_imp hmem
    simp at this
  · intro c hc
    have := head?_dropWhile_false (fun c => c != '=') e.toList c hc
    simpa using this
  · show String.mk (e.toList.takeWhile (fun c => c != '=')) = e
    have : e.toList.takeWhile (fun c => c != '=') = e.toList := by
      apply List.takeWhile_eq_self_iff.mpr
      intro c hc
      simp
      intro h
      exact he (h ▸ hc)
    rw [this]
    rfl
  · exact List.length_map env _
  · exact List.getElem?_map _ env i

/-- C10 witness: concrete instances — an entry with a value and an entry
without a separator. -/
theorem c10_env_keys_witness :
    ('=' ∉ "TERM".toList) ∧ pySplitHead "TERM" '=' = "TERM" :=
  ⟨by decide, c10_env_keys.2.1 "TERM" (by decide)⟩

/-! ## Claim C5: node deduplication lemmas -/

/-- Option.map distributes over Option.or. -/
theorem option_map_or {α β : Type} (f : α → β) (a b : Option α) :
    (a.or b).map f = (a.map f).or (b.map f) := by
  cases a <;> rfl

/-- The membership test of the dedup dict agrees with lookup. -/
theorem any_key_iff_isSome (d : NodesDict) (k : String) :
    d.any (fun q => q.1 == k) = true ↔ (alookup d k).isSome = true := by
  unfold alookup
  rw [List.any_eq_true]
  rw [show ((d.find? (fun q => q.1 == k)).map (·.2)).isSome
        = (d.find? (fun q => q.1 == k)).isSome from by
      cases d.find? (fun q => q.1 == k) <;> rfl]
  exact List.find?_isSome.symm

/-- Lookup after inserting one node: an existing entry is kept; a new
entry appears only for the inserted hostname. -/
theorem alookup_insertNode (en : String) (d : NodesDict) (n : Node) (h : String) :
    alookup (insertNode en d n) h =
      (alookup d h).or
        (if n.description.hostname == h then some (nodeRecordOf en n) else none) := by
  unfold insertNode
  by_cases hmem : d.any (fun q => q.1 == n.description.hostname) = true
  · rw [if_pos hmem]
    by_cases hh : n.description.hostname == h
    · have hkey : (alookup d h).isSome = true := by
        have := (any_key_iff_isSome d n.description.hostname).mp hmem
        rwa [eq_of_beq hh] at this
      obtain ⟨r, hr⟩ := Option.isSome_iff_exists.mp hkey
      rw [hr]
      rfl
    · rw [if_neg (by simpa using hh), Option.or_none]
  · rw [if_neg hmem]
    unfold alookup
    rw [List.find?_append, option_map_or]
    congr 1
    show (List.find? (fun q => q.1 == h) [(n.description.hostname, nodeRecordOf en n)]).map (·.2)
      = if n.description.hostname == h then some (nodeRecordOf en n) else none
    rw [List.find?_cons]
    by_cases hh : n.description.hostname == h
    · rw [if_pos hh]
      simp only [hh]
      rfl
    · rw [if_neg (by simpa using hh)]
      have : (n.description.hostname == h) = false := by simpa using hh
      simp only [this]
      rfl

/-- Lookup after inserting one payload's nodes: existing entries are
kept; for a fresh hostname the first node of the payload bearing it is
inserted, attributed to this endpoint. -/
theorem alookup_nodesInsert (en : String) (ns : List Node) :
    ∀ (d : NodesDict) (h : String),
      alookup (nodesInsert en ns d) h =
        (alookup d h).or
          ((ns.find? (fun n => n.description.hostname == h)).map (nodeRecordOf en)) := by
  induction ns with
  | nil => intro d h; simp [nodesInsert, Option.or_none]
  | cons n ns ih =>
    intro d h
    have hfold : nodesInsert en (n :: ns) d = nodesInsert en ns (insertNode en d n) := rfl
    rw [hfold, ih (insertNode en d n) h, alookup_insertNode, Option.or_assoc]
    congr 1
    rw [List.find?_cons]
    by_cases hh : n.description.hostname == h
    · rw [if_pos hh]
      simp only [hh]
      rfl
    · rw [if_neg (by simpa using hh)]
      have : (n.description.hostname == h) = false := by simpa using hh
      simp only [this, Option.none_or]

/-- Lookup after the whole run's nodes loop, from an arbitrary initial
dict: existing entries win, then the first sighting in traversal order. -/
theorem alookup_foldl_nodesStep (eps : List (String × Option (List Node))) :
    ∀ (d : NodesDict) (h : String),
      alookup (eps.foldl nodesStep d) h =
        (alookup d h).or
          (((sightings eps).find? (fun q => q.2.description.hostname == h)).map
            (fun q => nodeRecordOf q.1 q.2)) := by
  induction eps with
  | nil => intro d h; simp [sightings, Option.or_none]
  | cons p rest ih =>
    intro d h
    rw [List.foldl_cons, ih]
    cases hp : p.2 with
    | none =>
      have hstep : nodesStep d p = d := by unfold nodesStep; rw [hp]
      have hs : sightings (p :: rest) = sightings rest := by
        unfold sightings
        rw [List.flatMap_cons, hp]
        rfl
      rw [hstep, hs]
    | some ns =>
      have hstep : nodesStep d p = nodesInsert p.1 ns d := by unfold nodesStep; rw [hp]
      have hs : sightings (p :: rest) =
          ns.map (fun n => (p.1, n)) ++ sightings rest := by
        unfold sightings
        rw [List.flatMap_cons, hp]
      rw [hstep, alookup_nodesInsert, Option.or_assoc, hs,
        List.find?_append, option_map_or]
      congr 1
      rw [List.find?_map]
      rw [Option.map_map]
      rfl

/-- Inserting one node preserves distinctness of the hostname keys. -/
theorem keys_nodup_insertNode (en : String) (d : NodesDict) (n : Node)
    (hd : (d.map Prod.fst).Nodup) : ((insertNode en d n).map Prod.fst).Nodup := by
  unfold insertNode
  by_cases hmem : d.any (fun q => q.1 == n.description.hostname) = true
  · rwa [if_pos hmem]
  · rw [if_neg hmem, List.map_append]
    rw [List.nodup_append]
    refine ⟨hd, List.nodup_singleton _, ?_⟩
    intro k hk hk'
    apply hmem
    rw [List.any_eq_true]
    simp only [List.map_cons, List.map_nil, List.mem_singleton] at hk'
    obtain ⟨q, hq, hq1⟩ := List.mem_map.mp hk
    exact ⟨q, hq, by rw [hq1, hk']; exact beq_self_eq_true _⟩

/-- Inserting a payload's nodes preserves distinctness of the keys. -/
theorem keys_nodup_nodesInsert (en : String) (ns : List Node) :
    ∀ d : NodesDict, (d.map Prod.fst).Nodup →
      ((nodesInsert en ns d).map Prod.fst).Nodup := by
  induction ns with
  | nil => intro d hd; exact hd
  | cons n ns ih =>
    intro d hd
    exact ih (insertNode en d n) (keys_nodup_insertNode en d n hd)

/-- The whole nodes loop preserves distinctness of the keys. -/
theorem keys_nodup_foldl_nodesStep (eps : List (String × Option (List Node))) :
    ∀ d : NodesDict, (d.map Prod.fst).Nodup →
      ((eps.foldl nodesStep d).map Prod.fst).Nodup := by
  induction eps with
  | nil => intro d hd; exact hd
  | cons p rest ih =>
    intro d hd
    rw [List.foldl_cons]
    apply ih
    unfold nodesStep
    cases hp : p.2 with
    | none => exact hd
    | some ns => exact keys_nodup_nodesInsert p.1 ns d hd

/-- C5: across the entire run the node table keeps at most one record
per hostname (the hostname keys are distinct, each occurring at most
once), and the record stored for a hostname is exactly the one flattened
from the first sighting of that hostname in traversal order — attributed
to the endpoint that inserted it first; later sightings change nothing. -/
theorem c5_node_dedup_first_wins :
    ∀ eps : List (String × Option (List Node)),
      ((nodesTable eps).map Prod.fst).Nodup ∧
      (∀ h : String, ((nodesTable eps).map Prod.fst).count h ≤ 1) ∧
      (∀ h : String,
        alookup (nodesTable eps) h =
          ((sightings eps).find? (fun q => q.2.description.hostname == h)).map
            (fun q => nodeRecordOf q.1 q.2)) ∧
      (∀ h : String,
        (((sightings eps).find? (fun q => q.2.description.hostname == h)).isSome = true) →
          ((nodesTable eps).map Prod.fst).count h = 1) := by
  intro eps
  have hnodup : ((nodesTable eps).map Prod.fst).Nodup :=
    keys_nodup_foldl_nodesStep eps [] (List.nodup_nil)
  have hlook : ∀ h : String,
      alookup (nodesTable eps) h =
        ((sightings eps).find? (fun q => q.2.description.hostname == h)).map
          (fun q => nodeRecordOf q.1 q.2) := by
    intro h
    unfold nodesTable
    rw [alookup_foldl_nodesStep]
    rfl
  refine ⟨hnodup, fun h => List.nodup_iff_count_le_one.mp hnodup h, hlook, ?_⟩
  intro h hsome
  have hks : (alookup (nodesTable eps) h).isSome = true := by
    rw [hlook h]
    cases hfind : (sightings eps).find? (fun q => q.2.description.hostname == h) with
    | none => rw [hfind] at hsome; simp at hsome
    | some q => rfl
  have hmem : h ∈ (nodesTable eps).map Prod.fst := by
    unfold alookup at hks
    have : ((nodesTable eps).find? (fun q => q.1 == h)).isSome = true := by
      cases hf : (nodesTable eps).find? (fun q => q.1 == h) with
      | none => rw [hf] at hks; simp at hks
      | some q => rfl
    obtain ⟨q, hq, hq1⟩ := List.find?_isSome.mp this
    exact List.mem_map.mpr ⟨q, hq, eq_of_beq hq1⟩
  have h1 : 0 < ((nodesTable eps).map Prod.fst).count h :=
    List.count_pos_iff.mpr hmem
  have h2 : ((nodesTable eps).map Prod.fst).count h ≤ 1 :=
    List.nodup_iff_count_le_one.mp hnodup h
  omega

/-! ## Claim C7 -/

/-- The configuration check fails whenever one of the three inputs is
absent: a missing host raises AttributeError at the normalization line,
a missing user or password raises ValueError at the explicit check. -/
theorem checkConfig_error_of_missing (e : Env)
    (h : e.host = none ∨ e.user = none ∨ e.password = none) :
    ∃ ce : ConfigError, checkConfig e = .error ce := by
  cases hh : e.host with
  | none =>
    refine ⟨ConfigError.attributeError, ?_⟩
    unfold checkConfig
    rw [hh]
  | some u =>
    have hup : e.user = none ∨ e.password = none := by
      rcases h with h | h | h
      · rw [hh] at h; cases h
      · exact Or.inl h
      · exact Or.inr h
    refine ⟨ConfigError.valueError, ?_⟩
    unfold checkConfig
    rw [hh]
    rcases hup with h | h <;> rw [h] <;> simp [truthyStr]

/-- C7: if any of the three required configuration inputs (base URL,
username, password) is absent from the environment, the run terminates
with the configuration exception before any network activity: the
request trace is empty. -/
theorem c7_missing_config_fatal :
    ∀ inp : RunInput,
      (inp.env.host = none ∨ inp.env.user = none ∨ inp.env.password = none) →
      ∃ ce : ConfigError,
        runApp inp = (Except.error (RunError.config ce), ([] : List String)) := by
  intro inp hmiss
  obtain ⟨ce, hce⟩ := checkConfig_error_of_missing inp.env hmiss
  refine ⟨ce, ?_⟩
  unfold runApp
  rw [hce]

/-- A run input whose environment lacks the base URL. -/
def missingHostInput : RunInput :=
  { env := { host := none, user := some "admin", password := some "s3cret" },
    authResp := Except.ok "jwt",
    endpointsResp := Except.ok [],
    groupsResp := Except.ok [] }

/-- C7 witness: concrete run input with the base URL unset. -/
theorem c7_missing_config_fatal_witness :
    (missingHostInput.env.host = none ∨ missingHostInput.env.user = none ∨
      missingHostInput.env.password = none) ∧
    ∃ ce : ConfigError,
      runApp missingHostInput = (Except.error (RunError.config ce), ([] : List String)) :=
  ⟨Or.inl rfl, c7_missing_config_fatal missingHostInput (Or.inl rfl)⟩

/-! ## Claim C4: run-level error-tier lemmas -/

/-- When no stats request hits a transport-level error, the containers
loop finishes, and appends to the error log exactly one entry per
stats request that failed with an HTTP status error. -/
theorem processContainersLoop_ok (base : String) (epId : Nat) (epName : String)
    (cs : List ContainerInput)
    (hwf : cs.all (fun c => caughtOutcome c.statsResp) = true) :
    ∀ stats errors trace, ∃ stats' trace',
      processContainersLoop base epId epName cs stats errors trace =
        .ok (stats', errors ++ statsErrorsOf base epId cs, trace') := by
  induction cs with
  | nil =>
    intro stats errors trace
    exact ⟨stats, trace, by simp [processContainersLoop, statsErrorsOf]⟩
  | cons c rest ih =>
    intro stats errors trace
    rw [List.all_cons, Bool.and_eq_true] at hwf
    cases hc : c.statsResp with
    | transportError m =>
      rw [hc] at hwf
      simp [caughtOutcome] at hwf
    | httpError m =>
      obtain ⟨stats', trace', hrec⟩ :=
        ih hwf.2 stats (errors ++ [⟨statsUrl base epId c.id, m⟩])
          (trace ++ [statsUrl base epId c.id])
      refine ⟨stats', trace', ?_⟩
      simp only [processContainersLoop, hc, app_safe_request]
      rw [hrec]
      simp [statsErrorsOf, hc, List.append_assoc]
    | success payload =>
      obtain ⟨stats', trace', hrec⟩ :=
        ih hwf.2
          (stats ++ [⟨epName,
            (dictGet c.labels "com.docker.stack.namespace").getD "Unknown",
            (dictGet c.labels "com.docker.swarm.service.name").getD "Unknown",
            payload⟩])
          errors (trace ++ [statsUrl base epId c.id])
      refine ⟨stats', trace', ?_⟩
      simp only [processContainersLoop, hc, app_safe_request]
      rw [hrec]
      simp [statsErrorsOf, hc]

/-- When every service of the payload is in replicated mode, the services
loop finishes without a KeyError. -/
theorem processServices_ok (g n : String) (svcs : List Service)
    (hwf : svcs.all (fun s => s.spec.mode.replicated.isSome) = true) :
    ∀ recs, ∃ recs', processServices g n svcs recs = .ok recs' := by
  induction svcs with
  | nil => intro recs; exact ⟨recs, rfl⟩
  | cons s rest ih =>
    intro recs
    rw [List.all_cons, Bool.and_eq_true] at hwf
    obtain ⟨rep, hrep⟩ := Option.isSome_iff_exists.mp hwf.1
    obtain ⟨recs', hrec⟩ :=
      ih hwf.2 (recs ++ [⟨g, n, "Service", s.spec.name,
        pySplitHead s.spec.taskTemplate.containerSpec.image '@',
        envKeysOf (s.spec.taskTemplate.containerSpec.env.getD []),
        s.spec.taskTemplate.containerSpec.configs.getD [],
        s.spec.taskTemplate.containerSpec.mounts.getD [],
        rep.replicas,
        dictGet (s.spec.taskTemplate.containerSpec.labels.getD [])
          "com.docker.stack.namespace"⟩])
    refine ⟨recs', ?_⟩
    simp only [processServices, extractService, hrep]
    exact hrec

/-- When one endpoint's inputs are well-formed, its loop iteration
finishes, and appends to the error log exactly one entry per caught
per-resource failure, each carrying the requested URL; the run continues
with those resources absent. -/
theorem processEndpoint_ok (base : String) (groups : List Group) (acc : RunAcc)
    (ep : EndpointInput) (hwf : wfEndpoint ep = true) :
    ∃ acc' : RunAcc, processEndpoint base groups acc ep = .ok acc' ∧
      acc'.errors = acc.errors ++ expectedErrors base ep := by
  unfold wfEndpoint at hwf
  rw [Bool.and_eq_true, Bool.and_eq_true, Bool.and_eq_true] at hwf
  obtain ⟨⟨⟨h1, h2⟩, h3⟩, h4⟩ := hwf
  unfold processEndpoint expectedErrors
  cases hs : ep.servicesResp with
  | transportError m => rw [hs] at h1; cases h1
  | httpError m =>
    simp only [app_safe_request]
    cases hx : ep.secretsResp with
    | transportError m2 => rw [hx] at h2; cases h2
    | httpError m2 =>
      simp only [app_safe_request]
      cases hn : ep.nodesResp with
      | transportError m3 => rw [hn] at h3; cases h3
      | httpError m3 =>
        simp only [app_safe_request]
        cases hcn : ep.containersResp with
        | transportError m4 => rw [hcn] at h4; cases h4
        | httpError m4 =>
          simp only [app_safe_request]
          exact ⟨_, rfl, by simp [List.append_assoc]⟩
        | success cs =>
          rw [hcn] at h4
          obtain ⟨stats', trace', hrec⟩ := processContainersLoop_ok base ep.id ep.name cs h4
            acc.stats (acc.errors ++ [⟨servicesUrl base ep.id, m⟩] ++ [⟨secretsUrl base ep.id, m2⟩] ++ [⟨nodesUrl base ep.id, m3⟩])
            (acc.trace ++ [servicesUrl base ep.id, secretsUrl base ep.id, nodesUrl base ep.id, containersUrl base ep.id])
          simp only [app_safe_request]
          rw [hrec]
          exact ⟨_, rfl, by simp [List.append_assoc]⟩
      | success ns =>
        simp only [app_safe_request]
        cases hcn : ep.containersResp with
        | transportError m4 => rw [hcn] at h4; cases h4
        | httpError m4 =>
          simp only [app_safe_request]
          exact ⟨_, rfl, by simp [List.append_assoc]⟩
        | success cs =>
          rw [hcn] at h4
          obtain ⟨stats', trace', hrec⟩ := processContainersLoop_ok base ep.id ep.name cs h4
            acc.stats (acc.errors ++ [⟨servicesUrl base ep.id, m⟩] ++ [⟨secretsUrl base ep.id, m2⟩])
            (acc.trace ++ [servicesUrl base ep.id, secretsUrl base ep.id, nodesUrl base ep.id, containersUrl base ep.id])
          simp only [app_safe_request]
          rw [hrec]
          exact ⟨_, rfl, by simp [List.append_assoc]⟩
    | success secs =>
      simp only [app_safe_request]
      cases hn : ep.nodesResp with
      | transportError m3 => rw [hn] at h3; cases h3
      | httpError m3 =>
        simp only [app_safe_request]
        cases hcn : ep.containersResp with
        | transportError m4 => rw [hcn] at h4; cases h4
        | httpError m4 =>
          simp only [app_safe_request]
          exact ⟨_, rfl, by simp [List.append_assoc]⟩
        | success cs =>
          rw [hcn] at h4
          obtain ⟨stats', trace', hrec⟩ := processContainersLoop_ok base ep.id ep.name cs h4
            acc.stats (acc.errors ++ [⟨servicesUrl base ep.id, m⟩] ++ [⟨nodesUrl base ep.id, m3⟩])
            (acc.trace ++ [servicesUrl base ep.id, secretsUrl base ep.id, nodesUrl base ep.id, containersUrl base ep.id])
          simp only [app_safe_request]
          rw [hrec]
          exact ⟨_, rfl, by simp [List.append_assoc]⟩
      | success ns =>
        simp only [app_safe_request]
        cases hcn : ep.containersResp with
        | transportError m4 => rw [hcn] at h4; cases h4
        | httpError m4 =>
          simp only [app_safe_request]
          exact ⟨_, rfl, by simp [List.append_assoc]⟩
        | success cs =>
          rw [hcn] at h4
          obtain ⟨stats', trace', hrec⟩ := processContainersLoop_ok base ep.id ep.name cs h4
            acc.stats (acc.errors ++ [⟨servicesUrl base ep.id, m⟩])
            (acc.trace ++ [servicesUrl base ep.id, secretsUrl base ep.id, nodesUrl base ep.id, containersUrl base ep.id])
          simp only [app_safe_request]
          rw [hrec]
          exact ⟨_, rfl, by simp [List.append_assoc]⟩
  | success svcs =>
    rw [hs] at h1
    obtain ⟨recs', hsvc⟩ := processServices_ok (groupNameOf groups ep.groupId) ep.name svcs h1 acc.services
    simp only [app_safe_request]
    rw [hsvc]
    cases hx : ep.secretsResp with
    | transportError m2 => rw [hx] at h2; cases h2
    | httpError m2 =>
      simp only [app_safe_request]
      cases hn : ep.nodesResp with
      | transportError m3 => rw [hn] at h3; cases h3
      | httpError m3 =>
        simp only [app_safe_request]
        cases hcn : ep.containersResp with
        | transportError m4 => rw [hcn] at h4; cases h4
        | httpError m4 =>
          simp only [app_safe_request]
          exact ⟨_, rfl, by simp [List.append_assoc]⟩
        | success cs =>
          rw [hcn] at h4
          obtain ⟨stats', trace', hrec⟩ := processContainersLoop_ok base ep.id ep.name cs h4
            acc.stats (acc.errors ++ [⟨secretsUrl base ep.id, m2⟩] ++ [⟨nodesUrl base ep.id, m3⟩])
            (acc.trace ++ [servicesUrl base ep.id, secretsUrl base ep.id, nodesUrl base ep.id, containersUrl base ep.id])
          simp only [app_safe_request]
          rw [hrec]
          exact ⟨_, rfl, by simp [List.append_assoc]⟩
      | success ns =>
        simp only [app_safe_request]
        cases hcn : ep.containersResp with
        | transportError m4 => rw [hcn] at h4; cases h4
        | httpError m4 =>
          simp only [app_safe_request]
          exact ⟨_, rfl, by simp [List.append_assoc]⟩
        | success cs =>
          rw [hcn] at h4
          obtain ⟨stats', trace', hrec⟩ := processContainersLoop_ok base ep.id ep.name cs h4
            acc.stats (acc.errors ++ [⟨secretsUrl base ep.id, m2⟩])
            (acc.trace ++ [servicesUrl base ep.id, secretsUrl base ep.id, nodesUrl base ep.id, containersUrl base ep.id])
          simp only [app_safe_request]
          rw [hrec]
          exact ⟨_, rfl, by simp [List.append_assoc]⟩
    | success secs =>
      simp only [app_safe_request]
      cases hn : ep.nodesResp with
      | transportError m3 => rw [hn] at h3; cases h3
      | httpError m3 =>
        simp only [app_safe_request]
        cases hcn : ep.containersResp with
        | transportError m4 => rw [hcn] at h4; cases h4
        | httpError m4 =>
          simp only [app_safe_request]
          exact ⟨_, rfl, by simp [List.append_assoc]⟩
        | success cs =>
          rw [hcn] at h4
          obtain ⟨stats', trace', hrec⟩ := processContainersLoop_ok base ep.id ep.name cs h4
            acc.stats (acc.errors ++ [⟨nodesUrl base ep.id, m3⟩])
            (acc.trace ++ [servicesUrl base ep.id, secretsUrl base ep.id, nodesUrl base ep.id, containersUrl base ep.id])
          simp only [app_safe_request]
          rw [hrec]
          exact ⟨_, rfl, by simp [List.append_assoc]⟩
      | success ns =>
        simp only [app_safe_request]
        cases hcn : ep.containersResp with
        | transportError m4 => rw [hcn] at h4; cases h4
        | httpError m4 =>
          simp only [app_safe_request]
          exact ⟨_, rfl, by simp [List.append_assoc]⟩
        | success cs =>
          rw [hcn] at h4
          obtain ⟨stats', trace', hrec⟩ := processContainersLoop_ok base ep.id ep.name cs h4
            acc.stats acc.errors
            (acc.trace ++ [servicesUrl base ep.id, secretsUrl base ep.id, nodesUrl base ep.id, containersUrl base ep.id])
          simp only [app_safe_request]
          rw [hrec]
          exact ⟨_, rfl, by simp [List.append_assoc]⟩

/-- When every endpoint's inputs are well-formed, the endpoint loop
finishes for any starting accumulators. -/
theorem runEndpoints_ok (base : String) (groups : List Group)
    (eps : List EndpointInput) (hwf : eps.all wfEndpoint = true) :
    ∀ acc, ∃ acc', runEndpoints base groups acc eps = .ok acc' := by
  induction eps with
  | nil => intro acc; exact ⟨acc, rfl⟩
  | cons ep rest ih =>
    intro acc
    rw [List.all_cons, Bool.and_eq_true] at hwf
    obtain ⟨acc1, hep, _⟩ := processEndpoint_ok base groups acc ep hwf.1
    obtain ⟨acc', hrest⟩ := ih hwf.2 acc1
    refine ⟨acc', ?_⟩
    simp only [runEndpoints, hep]
    exact hrest

/-- A run input whose endpoint-groups listing fails with an HTTP 500;
everything else succeeds. -/
def groupsFailInput : RunInput :=
  { env := { host := some "https://portainer.example.com",
             user := some "admin", password := some "s3cret" },
    authResp := Except.ok "jwt",
    endpointsResp := Except.ok [],
    groupsResp := Except.error "500 Server Error" }

/-- C4 counterexample: the claim says the group lookup is recoverable,
but app.py fetches the groups with a plain request followed by
raise_for_status (lines 64-65), so a failing group listing aborts the
entire run. -/
theorem c4_counterexample :
    (runApp groupsFailInput).1 =
      Except.error (RunError.groupsFailed "500 Server Error") := rfl

/-- C4 (amended): exactly four conditions abort the run — missing
configuration, authentication failure, endpoint-listing failure, and
endpoint-group-listing failure; per-resource fetch failures that the
script's fetcher catches (non-2xx HTTP errors on services, secrets,
nodes, containers, stats) are recoverable: each is appended to the error
log with its URL and the run continues with that resource absent.  (The
well-formedness hypothesis excludes transport-level errors and
non-replicated services, which escape containment — see C3 and C1.) -/
theorem c4_fatal_vs_recoverable :
    ∀ inp : RunInput, wfInput inp = true →
      ((exceptOk (runApp inp).1 = true) ↔
        (exceptOk (checkConfig inp.env) = true ∧ exceptOk inp.authResp = true ∧
         exceptOk inp.endpointsResp = true ∧ exceptOk inp.groupsResp = true)) ∧
      (∀ (base : String) (groups : List Group) (acc : RunAcc) (ep : EndpointInput),
        wfEndpoint ep = true →
          ∃ acc' : RunAcc, processEndpoint base groups acc ep = .ok acc' ∧
            acc'.errors = acc.errors ++ expectedErrors base ep) := by
  intro inp hwf
  constructor
  · unfold runApp
    cases hc : checkConfig inp.env with
    | error e => simp [exceptOk]
    | ok base =>
      cases ha : inp.authResp with
      | error m => simp [exceptOk]
      | ok jwt =>
        cases he : inp.endpointsResp with
        | error m => simp [exceptOk]
        | ok eps =>
          cases hg : inp.groupsResp with
          | error m => simp [exceptOk]
          | ok groups =>
            unfold wfInput at hwf
            rw [he] at hwf
            have hwf2 : eps.all wfEndpoint = true := hwf
            obtain ⟨acc', hrun⟩ := runEndpoints_ok base groups eps hwf2 emptyAcc
            simp [hrun, exceptOk]
  · intro base groups acc ep hep
    exact processEndpoint_ok base groups acc ep hep

/-- A well-formed run input on which nothing fails. -/
def wfRunInput : RunInput :=
  { env := { host := some "https://portainer.example.com",
             user := some "admin", password := some "s3cret" },
    authResp := Except.ok "jwt",
    endpointsResp := Except.ok [],
    groupsResp := Except.ok [] }

/-- C4 witness: the fatality characterization at a concrete well-formed
input. -/
theorem c4_fatal_vs_recoverable_witness :
    wfInput wfRunInput = true ∧
    ((exceptOk (runApp wfRunInput).1 = true) ↔
      (exceptOk (checkConfig wfRunInput.env) = true ∧
       exceptOk wfRunInput.authResp = true ∧
       exceptOk wfRunInput.endpointsResp = true ∧
       exceptOk wfRunInput.groupsResp = true)) :=
  ⟨rfl, (c4_fatal_vs_recoverable wfRunInput rfl).1⟩

/-! ## Claim C9 -/

/-- C9: the modelled dispatcher uses a pool of default width 32, its
partition has one task per distinct group id, each task holds exactly its
group's endpoints in listing order, every endpoint belongs to its group's
task, and the join returns one result per task — each task folding the
per-endpoint collector sequentially over its endpoints. -/
theorem c9_dispatcher_partition :
    poolWidth = 32 ∧
    ∀ eps : List EndpointInput,
      ((partitionByGroup eps).map Prod.fst).Nodup ∧
      (∀ (g : Nat) (l : List EndpointInput), (g, l) ∈ partitionByGroup eps →
        l = eps.filter (fun e => e.groupId == g)) ∧
      (∀ e : EndpointInput, e ∈ eps →
        (e.groupId, eps.filter (fun e2 => e2.groupId == e.groupId)) ∈
          partitionByGroup eps) ∧
      (∀ (base : String) (groups : List Group),
        dispatchRun base groups eps =
          (partitionByGroup eps).map
            (fun p => (p.1, runEndpoints base groups emptyAcc p.2)) ∧
        (dispatchRun base groups eps).length = (partitionByGroup eps).length) := by
  refine ⟨rfl, fun eps => ⟨?_, ?_, ?_, fun base groups => ⟨rfl, List.length_map _ _⟩⟩⟩
  · have hmap : (partitionByGroup eps).map Prod.fst = groupIdsOf eps := by
      unfold partitionByGroup
      rw [List.map_map]
      exact List.map_id _
    rw [hmap]
    exact List.nodup_dedup _
  · intro g l hgl
    obtain ⟨g', _, hg'⟩ := List.mem_map.mp hgl
    have h1 : g' = g := congrArg Prod.fst hg'
    have h2 : groupTask eps g' = l := congrArg Prod.snd hg'
    rw [← h2, h1]
    rfl
  · intro e he
    exact List.mem_map.mpr
      ⟨e.groupId, List.mem_dedup.mpr (List.mem_map_of_mem _ he), rfl⟩

/-- A concrete endpoint for the dispatcher witness. -/
def witnessEndpoint : EndpointInput :=
  { id := 1, name := "prod", groupId := 7,
    servicesResp := HttpOutcome.httpError "500",
    secretsResp := HttpOutcome.httpError "500",
    nodesResp := HttpOutcome.httpError "500",
    containersResp := HttpOutcome.httpError "500" }

/-- C9 witness: the partition membership at a concrete endpoint list. -/
theorem c9_dispatcher_partition_witness :
    witnessEndpoint ∈ [witnessEndpoint] ∧
    (witnessEndpoint.groupId,
      [witnessEndpoint].filter (fun e2 => e2.groupId == witnessEndpoint.groupId)) ∈
        partitionByGroup [witnessEndpoint] :=
  ⟨List.mem_singleton.mpr rfl,
    (c9_dispatcher_partition.2 [witnessEndpoint]).2.2.1 witnessEndpoint
      (List.mem_singleton.mpr rfl)⟩

end Portainer
